import Mathlib

/-!
# Stitcher interface (`xcore/interface/stitcher.h`)

A shallow embedding of the data model and the inline operations of the
`XCam::Stitcher` interface, followed by the properties established about it.

Conventions of the embedding

* `uint32_t` values are natural numbers below `2 ^ 32`; the inline operations
  modelled here perform no arithmetic on them, so no reduction is needed
  except in the conversion `(uint32_t)(-1)`.
* `float` values are IEEE-754 binary32 values, see `F32`.
* a C array `T a[N]` is a function `Fin N → T`; reading it at an index
  outside `[0, N)` is undefined in C++ and is `none` in the embedding.
* the types `Rect`, `ImageCropInfo`, `BowlDataConfig`, `ExtrinsicParameter`
  and `IntrinsicParameter` are declared in headers that are not part of the
  sources at hand (`interface/data_types.h`, `calibration_parser.h`).
-/

namespace XCam

/-! ## Constants -/

/-- Source: `#define XCAM_STITCH_FISHEYE_MAX_NUM 6`. -/
abbrev XCAM_STITCH_FISHEYE_MAX_NUM : Nat := 6

/-- Source: `#define XCAM_STITCH_MAX_CAMERAS XCAM_STITCH_FISHEYE_MAX_NUM`. -/
abbrev XCAM_STITCH_MAX_CAMERAS : Nat := XCAM_STITCH_FISHEYE_MAX_NUM

/-- Source: `#define XCAM_STITCH_MIN_SEAM_WIDTH 56`. -/
abbrev XCAM_STITCH_MIN_SEAM_WIDTH : Nat := 56

/-- Conversion of a signed integer to `uint32_t`: reduction modulo `2 ^ 32`. -/
def toUInt32 (z : Int) : Nat := (z % (2 : Int) ^ 32).toNat

/-- Source: `#define INVALID_INDEX (uint32_t)(-1)`. -/
def INVALID_INDEX : Nat := toUInt32 (-1)

/-! ## Values of type `float` -/

/-- Values of the C++ type `float` (IEEE-754 binary32).  A finite value is
carried by the rational number it denotes (the sign of zero is not kept);
`F32.Representable` tells which rationals are binary32 values. -/
inductive F32 where
  | num (q : ℚ)
  | inf (neg : Bool)
  | nan
  deriving DecidableEq

/-- The literal `0.0f`. -/
def F32.zero : F32 := F32.num 0

/-- The literal `1.0f`. -/
def F32.one : F32 := F32.num 1

/-- The binary32 values: infinities, NaN, and the rationals `m * 2 ^ e` with a
24-bit significand `m` and `-149 ≤ e ≤ 104` (normal and subnormal numbers). -/
def F32.Representable : F32 → Prop
  | F32.num q => ∃ m e : ℤ, |m| < 2 ^ 24 ∧ -149 ≤ e ∧ e ≤ 104 ∧ q = (m : ℚ) * (2 : ℚ) ^ e
  | F32.inf _ => True
  | F32.nan => True

/-- Rounding of a rational to the nearest integer, ties to the even one. -/
def F32.roundHalfEven (x : ℚ) : ℤ :=
  let f := ⌊x⌋
  let d := x - (f : ℚ)
  if d < 1 / 2 then f
  else if 1 / 2 < d then f + 1
  else if f % 2 = 0 then f else f + 1

/-- Exponent of the last significand bit of the binary32 format at a nonzero
rational `q`: 23 below the binary exponent of `q`, and `-149` in the
subnormal range. -/
def F32.ulpExp (q : ℚ) : ℤ := max (Int.log 2 |q| - 23) (-149)

/-- Rounding of an exact result to binary32, in the default mode (to nearest,
ties to even); a result of magnitude `2 ^ 128` or more overflows. -/
def F32.round (q : ℚ) : F32 :=
  if q = 0 then F32.num 0
  else
    let r : ℚ := (F32.roundHalfEven (q / (2 : ℚ) ^ F32.ulpExp q) : ℚ) * (2 : ℚ) ^ F32.ulpExp q
    if (2 : ℚ) ^ (128 : ℤ) ≤ |r| then F32.inf (decide (q < 0)) else F32.num r

/-- The operator `*` of `float`: the exact product, rounded. -/
def F32.mul : F32 → F32 → F32
  | F32.nan, _ => F32.nan
  | _, F32.nan => F32.nan
  | F32.inf a, F32.inf b => F32.inf (xor a b)
  | F32.inf a, F32.num q => if q = 0 then F32.nan else F32.inf (xor a (decide (q < 0)))
  | F32.num q, F32.inf b => if q = 0 then F32.nan else F32.inf (xor (decide (q < 0)) b)
  | F32.num p, F32.num q => F32.round (p * q)

/-! ## Types declared outside the sources -/

/-- Types of `interface/data_types.h` and `calibration_parser.h` that the
stitcher stores but never inspects in the header; they are parameters of the
embedding. -/
structure ExternalTypes where
  ImageCropInfo : Type
  BowlDataConfig : Type
  ExtrinsicParameter : Type
  IntrinsicParameter : Type

/-- Modelled from the spec: `Rect` is declared in `interface/data_types.h`,
which is not among the sources; the spec uses it as a rectangle of the canvas
or of an image that has a position and a `width`. -/
structure Rect where
  pos_x : Int
  pos_y : Int
  width : Int
  height : Int
  deriving DecidableEq

/-! ## Data model of `stitcher.h` -/

/-- Source: `struct CalibrationInfo`. -/
structure CalibrationInfo (X : ExternalTypes) where
  extrinsic : X.ExtrinsicParameter
  intrinsic : X.IntrinsicParameter

/-- Source: `struct RoundViewSlice`. -/
structure RoundViewSlice where
  hori_angle_start : F32
  hori_angle_range : F32
  width : Nat
  height : Nat
  deriving DecidableEq

/-- Source: constructor `RoundViewSlice ()`. -/
def RoundViewSlice.ctor : RoundViewSlice :=
  { hori_angle_start := F32.zero, hori_angle_range := F32.zero, width := 0, height := 0 }

/-- Source: `struct CameraInfo`. -/
structure CameraInfo (X : ExternalTypes) where
  calibration : CalibrationInfo X
  slice_view : RoundViewSlice

/-- Source: the implicit default constructor of `CameraInfo`; it default
constructs both members.  The value of a default constructed
`CalibrationInfo` is fixed outside the sources and is the argument. -/
def CameraInfo.ctor {X : ExternalTypes} (calibration : CalibrationInfo X) : CameraInfo X :=
  { calibration := calibration, slice_view := RoundViewSlice.ctor }

/-- Source: `struct ImageOverlapInfo`. -/
structure ImageOverlapInfo where
  left : Rect
  right : Rect
  out_area : Rect
  deriving DecidableEq

/-- Source: `struct Stitcher::CenterMark`. -/
structure CenterMark where
  slice_center_x : Nat
  out_center_x : Nat
  deriving DecidableEq

/-- Source: constructor `CenterMark ()`. -/
def CenterMark.ctor : CenterMark :=
  { slice_center_x := 0, out_center_x := 0 }

/-- Source: `struct Stitcher::ScaleFactor`. -/
structure ScaleFactor where
  left_scale : F32
  right_scale : F32
  deriving DecidableEq

/-- Source: constructor `ScaleFactor ()`. -/
def ScaleFactor.ctor : ScaleFactor :=
  { left_scale := F32.one, right_scale := F32.one }

/-- Source: `struct Stitcher::CopyArea`. -/
structure CopyArea where
  in_idx : Nat
  in_area : Rect
  out_area : Rect
  deriving DecidableEq

/-- Source: constructor `CopyArea ()`.  It initialises `in_idx` only; the two
rectangles are built by the default constructor of `Rect`, which is outside
the sources, so their initial values are the arguments. -/
def CopyArea.ctor (in_area out_area : Rect) : CopyArea :=
  { in_idx := INVALID_INDEX, in_area := in_area, out_area := out_area }

/-- Source: `typedef std::vector<CopyArea> CopyAreaArray`. -/
abbrev CopyAreaArray := List CopyArea

/-- Source: the data members of `class Stitcher`, in declaration order. -/
structure Stitcher (X : ExternalTypes) where
  _crop_info : Fin XCAM_STITCH_MAX_CAMERAS → X.ImageCropInfo
  _is_crop_set : Bool
  _scale_factors : Fin XCAM_STITCH_MAX_CAMERAS → ScaleFactor
  _alignment_x : Nat
  _alignment_y : Nat
  _output_width : Nat
  _output_height : Nat
  _out_start_angle : F32
  _camera_num : Nat
  _camera_info : Fin XCAM_STITCH_MAX_CAMERAS → CameraInfo X
  _overlap_info : Fin XCAM_STITCH_MAX_CAMERAS → ImageOverlapInfo
  _bowl_config : X.BowlDataConfig
  _is_overlap_set : Bool
  _center_marks : Fin XCAM_STITCH_MAX_CAMERAS → CenterMark
  _is_center_marked : Bool
  _copy_areas : CopyAreaArray

namespace Stitcher

variable {X : ExternalTypes}

/-! ## Inline operations of `class Stitcher` -/

/-- Source: `get_bowl_config`. -/
def get_bowl_config (s : Stitcher X) : X.BowlDataConfig := s._bowl_config

/-- Source: `get_camera_num`. -/
def get_camera_num (s : Stitcher X) : Nat := s._camera_num

/-- Source: `is_crop_info_set`. -/
def is_crop_info_set (s : Stitcher X) : Bool := s._is_crop_set

/-- Source: `is_overlap_info_set`. -/
def is_overlap_info_set (s : Stitcher X) : Bool := s._is_overlap_set

/-- Source: `set_output_size`: two assignments, the alignment of the width
being commented out in the source. -/
def set_output_size (s : Stitcher X) (width height : Nat) : Stitcher X :=
  let s1 := { s with _output_width := width }
  { s1 with _output_height := height }

/-- Source: `get_output_size`; the two reference parameters are the result. -/
def get_output_size (s : Stitcher X) : Nat × Nat :=
  (s._output_width, s._output_height)

/-- Read of a C array of `XCAM_STITCH_MAX_CAMERAS` elements at `idx`; `none`
stands for the undefined read outside the array. -/
def readArray {T : Type} (a : Fin XCAM_STITCH_MAX_CAMERAS → T) (idx : Nat) : Option T :=
  if h : idx < XCAM_STITCH_MAX_CAMERAS then some (a ⟨idx, h⟩) else none

/-- Source: `get_center`. -/
def get_center (s : Stitcher X) (idx : Nat) : Option CenterMark :=
  readArray s._center_marks idx

/-- Source: `get_overlap`. -/
def get_overlap (s : Stitcher X) (idx : Nat) : Option ImageOverlapInfo :=
  readArray s._overlap_info idx

/-- Source: `get_crop`. -/
def get_crop (s : Stitcher X) (idx : Nat) : Option X.ImageCropInfo :=
  readArray s._crop_info idx

/-- Source: `get_copy_area`. -/
def get_copy_area (s : Stitcher X) : CopyAreaArray := s._copy_areas

/-- Write of a C array of `XCAM_STITCH_MAX_CAMERAS` elements at `idx`; the
operations below write only after checking that `idx` is inside the array. -/
def writeArray {T : Type} (a : Fin XCAM_STITCH_MAX_CAMERAS → T) (idx : Nat)
    (h : idx < XCAM_STITCH_MAX_CAMERAS) (v : T) : Fin XCAM_STITCH_MAX_CAMERAS → T :=
  Function.update a ⟨idx, h⟩ v

/-! ## Operations declared in the header whose bodies are outside the sources -/

/-- Modelled from the spec: `set_bowl_config` is only declared in the header
(`bool set_bowl_config (const BowlDataConfig &config)`), its body is not among
the sources.  The spec gives no failure condition for it: the configuration is
stored and success is reported. -/
def set_bowl_config (s : Stitcher X) (config : X.BowlDataConfig) : Bool × Stitcher X :=
  (true, { s with _bowl_config := config })

/-- Modelled from the spec: `set_camera_num` is only declared in the header,
its body is not among the sources.  Spec: `1 ≤ camera_num ≤
XCAM_STITCH_FISHEYE_MAX_NUM`, a camera count out of range is a configuration
error, and a failing setter leaves the prior state unchanged. -/
def set_camera_num (s : Stitcher X) (num : Nat) : Bool × Stitcher X :=
  if 1 ≤ num ∧ num ≤ XCAM_STITCH_FISHEYE_MAX_NUM then
    (true, { s with _camera_num := num })
  else
    (false, s)

/-- Modelled from the spec: `set_camera_info` is only declared in the header,
its body is not among the sources.  Spec: one entry per camera, indexed
`0..camera_num-1`; every per-camera array is indexed only within
`[0, camera_num)`; a failing setter leaves the prior state unchanged. -/
def set_camera_info (s : Stitcher X) (index : Nat) (info : CameraInfo X) : Bool × Stitcher X :=
  if h : index < s._camera_num ∧ index < XCAM_STITCH_MAX_CAMERAS then
    (true, { s with _camera_info := writeArray s._camera_info index h.2 info })
  else
    (false, s)

/-- Modelled from the spec: `set_crop_info` is only declared in the header,
its body is not among the sources.  Spec: one crop per camera, which may be
explicitly set by the caller; indexed only within `[0, camera_num)`; a failing
setter leaves the prior state unchanged.  A successful call records that the
crop was supplied (the flag read by `is_crop_info_set`). -/
def set_crop_info (s : Stitcher X) (index : Nat) (info : X.ImageCropInfo) : Bool × Stitcher X :=
  if h : index < s._camera_num ∧ index < XCAM_STITCH_MAX_CAMERAS then
    (true, { s with _crop_info := writeArray s._crop_info index h.2 info, _is_crop_set := true })
  else
    (false, s)

/-- A call of one of the public setters of `Stitcher`, with its arguments. -/
inductive SetterCall (X : ExternalTypes) where
  | set_bowl_config (config : X.BowlDataConfig)
  | set_camera_num (num : Nat)
  | set_camera_info (index : Nat) (info : CameraInfo X)
  | set_crop_info (index : Nat) (info : X.ImageCropInfo)
  | set_output_size (width height : Nat)

/-- The effect of a setter call: the value it returns and the state after it.
The four setters declared `bool` return `some` status; `set_output_size` is
declared `void` in the source and returns nothing, `none`. -/
def SetterCall.run : SetterCall X → Stitcher X → Option Bool × Stitcher X
  | SetterCall.set_bowl_config config, s =>
      ((s.set_bowl_config config).1, (s.set_bowl_config config).2)
  | SetterCall.set_camera_num num, s =>
      ((s.set_camera_num num).1, (s.set_camera_num num).2)
  | SetterCall.set_camera_info index info, s =>
      ((s.set_camera_info index info).1, (s.set_camera_info index info).2)
  | SetterCall.set_crop_info index info, s =>
      ((s.set_crop_info index info).1, (s.set_crop_info index info).2)
  | SetterCall.set_output_size width height, s =>
      (none, s.set_output_size width height)

/-- Modelled from the spec: the error kinds of the spec (section 7), returned
as a status result. -/
inductive StitchError where
  | configuration
  | resource
  | derivation
  deriving DecidableEq

/-- Modelled from the spec: the loop of `estimate_overlap` over the cameras
`idx, idx + 1, ..` (`todo` of them remain).  For camera `idx` and its circular
successor the overlap is computed by `region`; an overlap whose `out_area` is
narrower than `XCAM_STITCH_MIN_SEAM_WIDTH` is rejected with a configuration
error, any other is stored for camera `idx` as computed.  A camera that has no
slot in the per-camera arrays (camera count out of range) is a configuration
error as well. -/
def estimate_overlap_loop (region : Stitcher X → Nat → Nat → ImageOverlapInfo)
    (s : Stitcher X) :
    Nat → Nat → (Fin XCAM_STITCH_MAX_CAMERAS → ImageOverlapInfo) →
      Except StitchError (Fin XCAM_STITCH_MAX_CAMERAS → ImageOverlapInfo)
  | 0, _, acc => Except.ok acc
  | todo + 1, idx, acc =>
      let next_idx := (idx + 1) % s._camera_num
      let overlap := region s idx next_idx
      if overlap.out_area.width < (XCAM_STITCH_MIN_SEAM_WIDTH : Int) then
        Except.error StitchError.configuration
      else if h : idx < XCAM_STITCH_MAX_CAMERAS then
        estimate_overlap_loop region s todo (idx + 1) (writeArray acc idx h overlap)
      else
        Except.error StitchError.configuration

/-- Modelled from the spec: `estimate_overlap` is only declared in the header
(`XCamReturn estimate_overlap ()`), its body is not among the sources.  Spec,
section 4.4: for each camera and its circular successor the region of the
canvas that both cover is computed, and a minimum width of
`XCAM_STITCH_MIN_SEAM_WIDTH` is enforced, narrower overlaps being reported as a
configuration failure rather than clamped.  The geometric computation, which the
spec leaves to the calibration, is the parameter `region`: `region s idx next`
is the overlap computed for camera `idx` and its successor `next` from the
configuration `s`.  On success the overlaps are stored and marked as set; on
failure no state is produced. -/
def estimate_overlap (region : Stitcher X → Nat → Nat → ImageOverlapInfo)
    (s : Stitcher X) : Except StitchError (Stitcher X) :=
  match estimate_overlap_loop region s s._camera_num 0 s._overlap_info with
  | Except.ok overlaps => Except.ok { s with _overlap_info := overlaps, _is_overlap_set := true }
  | Except.error e => Except.error e

end Stitcher

/-! ## A concrete configuration -/

/-- External types with no content, for concrete configurations. -/
def ExternalTypes.plain : ExternalTypes :=
  { ImageCropInfo := Unit, BowlDataConfig := Unit, ExtrinsicParameter := Unit,
    IntrinsicParameter := Unit }

/-- Overlap of the concrete configuration: a seam of 64 columns at the right
end of the quarter of the 1920 x 1080 canvas that belongs to camera `idx`. -/
def sampleOverlap (idx : Nat) : ImageOverlapInfo :=
  { left := { pos_x := 416, pos_y := 0, width := 64, height := 1080 }
    right := { pos_x := 0, pos_y := 0, width := 64, height := 1080 }
    out_area := { pos_x := 480 * (idx : Int) + 416, pos_y := 0, width := 64, height := 1080 } }

/-- A configured stitcher: four cameras of 90 degrees each, output 1920 x 1080,
every derived flag set and one copy area per camera. -/
def sampleStitcher : Stitcher ExternalTypes.plain :=
  { _crop_info := fun _ => ()
    _is_crop_set := true
    _scale_factors := fun _ => ScaleFactor.ctor
    _alignment_x := 8
    _alignment_y := 1
    _output_width := 1920
    _output_height := 1080
    _out_start_angle := F32.zero
    _camera_num := 4
    _camera_info := fun i =>
      { calibration := { extrinsic := (), intrinsic := () }
        slice_view := { hori_angle_start := F32.num (90 * (i.val : ℚ)),
                        hori_angle_range := F32.num 90, width := 480, height := 1080 } }
    _overlap_info := fun i => sampleOverlap i.val
    _bowl_config := ()
    _is_overlap_set := true
    _center_marks := fun i => { slice_center_x := 240, out_center_x := 480 * i.val + 240 }
    _is_center_marked := true
    _copy_areas :=
      (List.range 4).map fun i =>
        { in_idx := i
          in_area := { pos_x := 64, pos_y := 0, width := 352, height := 1080 }
          out_area := { pos_x := 480 * (i : Int) + 64, pos_y := 0, width := 352, height := 1080 } } }

/-- Overlap computation of a concrete configuration: the overlaps of
`sampleOverlap`. -/
def sampleRegion (_s : Stitcher ExternalTypes.plain) (idx _next : Nat) : ImageOverlapInfo :=
  sampleOverlap idx

/-- Overlap computation that yields a seam of only 40 columns for camera 2. -/
def narrowRegion (_s : Stitcher ExternalTypes.plain) (idx _next : Nat) : ImageOverlapInfo :=
  if idx = 2 then
    { left := { pos_x := 440, pos_y := 0, width := 40, height := 1080 }
      right := { pos_x := 0, pos_y := 0, width := 40, height := 1080 }
      out_area := { pos_x := 1400, pos_y := 0, width := 40, height := 1080 } }
  else sampleOverlap idx

/-! ## Properties of `float` multiplication -/

theorem F32.roundHalfEven_intCast (n : ℤ) : F32.roundHalfEven (n : ℚ) = n := by
  simp [F32.roundHalfEven]

theorem F32.abs_cast_lt_of_abs_lt {m : ℤ} (hm : |m| < 2 ^ 24) :
    |(m : ℚ)| < ((2 ^ 24 : ℤ) : ℚ) := by
  have h3 : ((|m| : ℤ) : ℚ) < ((2 ^ 24 : ℤ) : ℚ) := Int.cast_lt.mpr hm
  rwa [Int.cast_abs] at h3

/-- At a nonzero binary32 value `m * 2 ^ e` the exponent of the last
significand bit is at most `e`. -/
theorem F32.ulpExp_le (m e : ℤ) (hm0 : m ≠ 0) (hm : |m| < 2 ^ 24) (he : -149 ≤ e) :
    F32.ulpExp ((m : ℚ) * (2 : ℚ) ^ e) ≤ e := by
  have h2 : (0 : ℚ) < (2 : ℚ) ^ e := zpow_pos (by norm_num) e
  have hmq : (0 : ℚ) < |(m : ℚ)| := abs_pos.mpr (by exact_mod_cast hm0)
  have habs : |(m : ℚ) * (2 : ℚ) ^ e| = |(m : ℚ)| * (2 : ℚ) ^ e := by
    rw [abs_mul, abs_of_pos h2]
  have hpos : (0 : ℚ) < |(m : ℚ) * (2 : ℚ) ^ e| := by
    rw [habs]; exact mul_pos hmq h2
  have hlow := Int.zpow_log_le_self (R := ℚ) (b := 2) (by norm_num) hpos
  have hmq2 : |(m : ℚ)| < (2 : ℚ) ^ (24 : ℤ) :=
    calc |(m : ℚ)| < ((2 ^ 24 : ℤ) : ℚ) := F32.abs_cast_lt_of_abs_lt hm
      _ = (2 : ℚ) ^ (24 : ℤ) := by norm_num
  have hup : |(m : ℚ) * (2 : ℚ) ^ e| < (2 : ℚ) ^ (24 + e) := by
    rw [habs, zpow_add₀ (by norm_num : (2 : ℚ) ≠ 0)]
    exact mul_lt_mul_of_pos_right hmq2 h2
  have hlt : ((2 : ℕ) : ℚ) ^ Int.log 2 |(m : ℚ) * (2 : ℚ) ^ e| < ((2 : ℕ) : ℚ) ^ (24 + e) :=
    lt_of_le_of_lt hlow (by simpa using hup)
  have hL : Int.log 2 |(m : ℚ) * (2 : ℚ) ^ e| < 24 + e :=
    (zpow_lt_zpow_iff_right₀ (by norm_num : (1 : ℚ) < ((2 : ℕ) : ℚ))).mp hlt
  unfold F32.ulpExp
  exact max_le (by omega) he

/-- Rounding is the identity on the finite binary32 values. -/
theorem F32.round_of_representable (q : ℚ) (h : (F32.num q).Representable) :
    F32.round q = F32.num q := by
  obtain ⟨m, e, hm, he1, he2, rfl⟩ := h
  by_cases hm0 : m = 0
  · subst hm0; simp [F32.round]
  have h2ne : (2 : ℚ) ≠ 0 := by norm_num
  have hq0 : (m : ℚ) * (2 : ℚ) ^ e ≠ 0 :=
    mul_ne_zero (by exact_mod_cast hm0) (zpow_ne_zero e h2ne)
  have hE := F32.ulpExp_le m e hm0 hm he1
  have hscaled : (m : ℚ) * (2 : ℚ) ^ e / (2 : ℚ) ^ F32.ulpExp ((m : ℚ) * (2 : ℚ) ^ e)
      = ((m * 2 ^ (e - F32.ulpExp ((m : ℚ) * (2 : ℚ) ^ e)).toNat : ℤ) : ℚ) := by
    generalize F32.ulpExp ((m : ℚ) * (2 : ℚ) ^ e) = E at hE
    obtain ⟨k, hk⟩ : ∃ k : ℕ, e = E + k := ⟨(e - E).toNat, by omega⟩
    subst hk
    have hsub : (E + (k : ℤ) - E).toNat = k := by simp
    rw [hsub, zpow_add₀ h2ne, zpow_natCast]
    push_cast
    field_simp
    ring
  have hback : ((m * 2 ^ (e - F32.ulpExp ((m : ℚ) * (2 : ℚ) ^ e)).toNat : ℤ) : ℚ)
      * (2 : ℚ) ^ F32.ulpExp ((m : ℚ) * (2 : ℚ) ^ e) = (m : ℚ) * (2 : ℚ) ^ e := by
    rw [← hscaled]
    field_simp
  have hbound : |(m : ℚ) * (2 : ℚ) ^ e| < (2 : ℚ) ^ (128 : ℤ) := by
    have h2 : (0 : ℚ) < (2 : ℚ) ^ e := zpow_pos (by norm_num) e
    have h4 : (2 : ℚ) ^ e ≤ (2 : ℚ) ^ (104 : ℤ) :=
      (zpow_le_zpow_iff_right₀ (by norm_num : (1 : ℚ) < 2)).mpr he2
    rw [abs_mul, abs_of_pos h2]
    calc |(m : ℚ)| * (2 : ℚ) ^ e < ((2 ^ 24 : ℤ) : ℚ) * (2 : ℚ) ^ e :=
          mul_lt_mul_of_pos_right (F32.abs_cast_lt_of_abs_lt hm) h2
      _ ≤ ((2 ^ 24 : ℤ) : ℚ) * (2 : ℚ) ^ (104 : ℤ) :=
          mul_le_mul_of_nonneg_left h4 (by norm_num)
      _ = (2 : ℚ) ^ (128 : ℤ) := by norm_num
  unfold F32.round
  rw [if_neg hq0]
  simp only [hscaled, F32.roundHalfEven_intCast, hback]
  rw [if_neg (not_le.mpr hbound)]

/-- Multiplying a binary32 value by `1.0f` on the right returns it. -/
theorem F32.mul_one_of_representable (w : F32) (hw : w.Representable) :
    F32.mul w F32.one = w := by
  cases w with
  | num q => simpa [F32.mul, F32.one] using F32.round_of_representable q hw
  | inf neg =>
    have h1 : ¬ ((1 : ℚ) < 0) := by norm_num
    simp [F32.mul, F32.one, h1]
  | nan => simp [F32.mul]

/-- Multiplying a binary32 value by `1.0f` on the left returns it. -/
theorem F32.one_mul_of_representable (w : F32) (hw : w.Representable) :
    F32.mul F32.one w = w := by
  cases w with
  | num q => simpa [F32.mul, F32.one] using F32.round_of_representable q hw
  | inf neg =>
    have h1 : ¬ ((1 : ℚ) < 0) := by norm_num
    simp [F32.mul, F32.one, h1]
  | nan => simp [F32.mul, F32.one]

/-! ## Output size -/

/-- C1: for every stitcher state and every pair of values `(w, h)`,
`set_output_size (w, h)` followed by `get_output_size` returns exactly
`(w, h)`; neither the width nor the height is aligned or rounded. -/
theorem Stitcher.get_output_size_set_output_size {X : ExternalTypes} (s : Stitcher X)
    (w h : Nat) : (s.set_output_size w h).get_output_size = (w, h) := by
  simp [Stitcher.set_output_size, Stitcher.get_output_size]

/-- C2, as the claim states it, fails: in a configured stitcher whose derived
flags are all set, `set_output_size` with a new size (3840 x 2160 instead of
1920 x 1080) clears none of the crop-set, overlap-set and center-marked flags
and leaves the four copy areas in place. -/
theorem Stitcher.set_output_size_does_not_invalidate :
    (3840 ≠ sampleStitcher._output_width ∨ 2160 ≠ sampleStitcher._output_height) ∧
    (sampleStitcher.set_output_size 3840 2160).is_crop_info_set = true ∧
    (sampleStitcher.set_output_size 3840 2160).is_overlap_info_set = true ∧
    (sampleStitcher.set_output_size 3840 2160)._is_center_marked = true ∧
    (sampleStitcher.set_output_size 3840 2160).get_copy_area.length = 4 ∧
    ¬ ((sampleStitcher.set_output_size 3840 2160).is_crop_info_set = false ∧
       (sampleStitcher.set_output_size 3840 2160).is_overlap_info_set = false ∧
       (sampleStitcher.set_output_size 3840 2160)._is_center_marked = false) := by
  decide

/-- C2, amended: `set_output_size` with a width or height different from the
stored one stores the new size and invalidates nothing; the crop-set flag, the
overlap-set flag, the center-marked flag and the copy-area list are after the
call what they were before it. -/
theorem Stitcher.set_output_size_keeps_derived_state {X : ExternalTypes} (s : Stitcher X)
    (w h : Nat) (_hne : w ≠ s._output_width ∨ h ≠ s._output_height) :
    (s.set_output_size w h).get_output_size = (w, h) ∧
    (s.set_output_size w h).is_crop_info_set = s.is_crop_info_set ∧
    (s.set_output_size w h).is_overlap_info_set = s.is_overlap_info_set ∧
    (s.set_output_size w h)._is_center_marked = s._is_center_marked ∧
    (s.set_output_size w h).get_copy_area = s.get_copy_area := by
  simp [Stitcher.set_output_size, Stitcher.get_output_size, Stitcher.is_crop_info_set,
    Stitcher.is_overlap_info_set, Stitcher.get_copy_area]

/-- Witness of C2, amended, on the configured stitcher and the size
3840 x 2160. -/
theorem Stitcher.set_output_size_keeps_derived_state_witness :
    (3840 ≠ sampleStitcher._output_width ∨ 2160 ≠ sampleStitcher._output_height) ∧
    ((sampleStitcher.set_output_size 3840 2160).get_output_size = (3840, 2160) ∧
     (sampleStitcher.set_output_size 3840 2160).is_crop_info_set
       = sampleStitcher.is_crop_info_set ∧
     (sampleStitcher.set_output_size 3840 2160).is_overlap_info_set
       = sampleStitcher.is_overlap_info_set ∧
     (sampleStitcher.set_output_size 3840 2160)._is_center_marked
       = sampleStitcher._is_center_marked ∧
     (sampleStitcher.set_output_size 3840 2160).get_copy_area
       = sampleStitcher.get_copy_area) :=
  ⟨by decide,
   Stitcher.set_output_size_keeps_derived_state sampleStitcher 3840 2160 (by decide)⟩

/-- C8: `set_output_size` changes only the stored output width and height:
the camera count, the per-camera camera-info, crop, overlap, center-mark and
scale-factor arrays, the bowl config, the alignment values, the start angle,
the copy-area list and the three flags are the same after the call as before
it. -/
theorem Stitcher.set_output_size_frame {X : ExternalTypes} (s : Stitcher X) (w h : Nat) :
    (s.set_output_size w h).get_camera_num = s.get_camera_num ∧
    (s.set_output_size w h)._camera_info = s._camera_info ∧
    (s.set_output_size w h)._crop_info = s._crop_info ∧
    (s.set_output_size w h)._overlap_info = s._overlap_info ∧
    (s.set_output_size w h)._center_marks = s._center_marks ∧
    (s.set_output_size w h)._scale_factors = s._scale_factors ∧
    (s.set_output_size w h).get_bowl_config = s.get_bowl_config ∧
    (s.set_output_size w h)._alignment_x = s._alignment_x ∧
    (s.set_output_size w h)._alignment_y = s._alignment_y ∧
    (s.set_output_size w h)._out_start_angle = s._out_start_angle ∧
    (s.set_output_size w h).get_copy_area = s.get_copy_area ∧
    (s.set_output_size w h).is_crop_info_set = s.is_crop_info_set ∧
    (s.set_output_size w h).is_overlap_info_set = s.is_overlap_info_set ∧
    (s.set_output_size w h)._is_center_marked = s._is_center_marked :=
  ⟨rfl, rfl, rfl, rfl, rfl, rfl, rfl, rfl, rfl, rfl, rfl, rfl, rfl, rfl⟩

/-! ## Setters -/

/-- C3, as the claim states it, fails: `set_output_size` is a public setter
that returns no status, so there is no status value for the call
`set_output_size (3840, 2160)` on the configured stitcher. -/
theorem Stitcher.set_output_size_returns_no_status :
    ¬ ∃ ok : Bool,
        ((Stitcher.SetterCall.set_output_size 3840 2160).run sampleStitcher).1 = some ok ∧
        (ok = false →
          ((Stitcher.SetterCall.set_output_size 3840 2160).run sampleStitcher).2
            = sampleStitcher) := by
  rintro ⟨ok, hok, -⟩
  simp [Stitcher.SetterCall.run] at hok

/-- C3, amended: `set_bowl_config`, `set_camera_num`, `set_camera_info` and
`set_crop_info` return a success/failure status, and whenever one of them
reports failure the state after the call equals the state before it;
`set_output_size` is the one public setter that returns no status: it cannot
report failure and always stores the size it is given. -/
theorem Stitcher.setter_failure_leaves_state {X : ExternalTypes}
    (call : Stitcher.SetterCall X) (s : Stitcher X) :
    ((call.run s).1 = some false → (call.run s).2 = s) ∧
    ((call.run s).1 = none ↔
      ∃ w h, call = Stitcher.SetterCall.set_output_size w h ∧
        (call.run s).2.get_output_size = (w, h)) := by
  cases call with
  | set_bowl_config config =>
    simp [Stitcher.SetterCall.run, Stitcher.set_bowl_config]
  | set_camera_num num =>
    refine ⟨?_, by simp [Stitcher.SetterCall.run]⟩
    simp only [Stitcher.SetterCall.run, Stitcher.set_camera_num]
    split <;> simp
  | set_camera_info index info =>
    refine ⟨?_, by simp [Stitcher.SetterCall.run]⟩
    simp only [Stitcher.SetterCall.run, Stitcher.set_camera_info]
    split <;> simp
  | set_crop_info index info =>
    refine ⟨?_, by simp [Stitcher.SetterCall.run]⟩
    simp only [Stitcher.SetterCall.run, Stitcher.set_crop_info]
    split <;> simp
  | set_output_size w h =>
    simp [Stitcher.SetterCall.run, Stitcher.set_output_size, Stitcher.get_output_size]

/-- Witness of C3, amended: a failing call, `set_camera_num (7)`, reports
failure and leaves the configured stitcher as it was. -/
theorem Stitcher.setter_failure_leaves_state_witness :
    ((Stitcher.SetterCall.set_camera_num 7).run sampleStitcher).1 = some false ∧
    ((Stitcher.SetterCall.set_camera_num 7).run sampleStitcher).2 = sampleStitcher :=
  ⟨by decide,
   (Stitcher.setter_failure_leaves_state (Stitcher.SetterCall.set_camera_num 7)
      sampleStitcher).1 (by decide)⟩

/-! ## Constructors -/

/-- C4: a default-constructed `CopyArea` has `in_idx` equal to `INVALID_INDEX`,
and `INVALID_INDEX`, `(uint32_t)(-1)`, equals `0xFFFFFFFF = 2 ^ 32 - 1`; it
differs from every camera index in `[0, 6)`. -/
theorem CopyArea.ctor_in_idx (in_area out_area : Rect) :
    (CopyArea.ctor in_area out_area).in_idx = INVALID_INDEX ∧
    INVALID_INDEX = 0xFFFFFFFF ∧
    INVALID_INDEX = 2 ^ 32 - 1 ∧
    ∀ idx : Fin XCAM_STITCH_FISHEYE_MAX_NUM, INVALID_INDEX ≠ idx.val := by
  refine ⟨rfl, by decide, by decide, ?_⟩
  intro idx
  have h1 : INVALID_INDEX = 4294967295 := by decide
  have h2 : idx.val < 6 := idx.isLt
  omega

/-- C9: a default-constructed `ScaleFactor` has `left_scale = 1` and
`right_scale = 1`, and multiplying any blend weight (any `float` value) by
either scale, on either side, returns that weight unchanged. -/
theorem ScaleFactor.ctor_neutral (w : F32) (hw : w.Representable) :
    ScaleFactor.ctor.left_scale = F32.num 1 ∧
    ScaleFactor.ctor.right_scale = F32.num 1 ∧
    F32.mul w ScaleFactor.ctor.left_scale = w ∧
    F32.mul w ScaleFactor.ctor.right_scale = w ∧
    F32.mul ScaleFactor.ctor.left_scale w = w ∧
    F32.mul ScaleFactor.ctor.right_scale w = w :=
  ⟨rfl, rfl, F32.mul_one_of_representable w hw, F32.mul_one_of_representable w hw,
   F32.one_mul_of_representable w hw, F32.one_mul_of_representable w hw⟩

/-- Witness of C9 at the blend weight `0.5f`. -/
theorem ScaleFactor.ctor_neutral_witness :
    (F32.num (1 / 2)).Representable ∧
    F32.mul (F32.num (1 / 2)) ScaleFactor.ctor.left_scale = F32.num (1 / 2) ∧
    F32.mul (F32.num (1 / 2)) ScaleFactor.ctor.right_scale = F32.num (1 / 2) :=
  have hw : (F32.num (1 / 2)).Representable :=
    ⟨1, -1, by decide, by decide, by decide, by norm_num⟩
  ⟨hw, (ScaleFactor.ctor_neutral _ hw).2.2.1, (ScaleFactor.ctor_neutral _ hw).2.2.2.1⟩

/-- C10: a default-constructed `RoundViewSlice` has `hori_angle_start = 0`,
`hori_angle_range = 0`, `width = 0` and `height = 0`, a default-constructed
`CenterMark` has `slice_center_x = 0` and `out_center_x = 0`; so the slice of a
default-constructed `CameraInfo` has zero angular range and zero output
width. -/
theorem RoundViewSlice.ctor_zero {X : ExternalTypes} (calibration : CalibrationInfo X) :
    RoundViewSlice.ctor.hori_angle_start = F32.num 0 ∧
    RoundViewSlice.ctor.hori_angle_range = F32.num 0 ∧
    RoundViewSlice.ctor.width = 0 ∧
    RoundViewSlice.ctor.height = 0 ∧
    CenterMark.ctor.slice_center_x = 0 ∧
    CenterMark.ctor.out_center_x = 0 ∧
    (CameraInfo.ctor calibration).slice_view.hori_angle_range = F32.num 0 ∧
    (CameraInfo.ctor calibration).slice_view.width = 0 :=
  ⟨rfl, rfl, rfl, rfl, rfl, rfl, rfl, rfl⟩

/-! ## Per-camera accessors -/

/-- C5: under `1 ≤ camera_num ≤ XCAM_STITCH_FISHEYE_MAX_NUM`, for every
`idx < camera_num` the accessors `get_center`, `get_overlap` and `get_crop`
read inside their arrays, whose capacity `XCAM_STITCH_MAX_CAMERAS` equals
`XCAM_STITCH_FISHEYE_MAX_NUM = 6`: each returns the element stored at `idx`. -/
theorem Stitcher.accessors_in_bounds {X : ExternalTypes} (s : Stitcher X) (idx : Nat)
    (_hmin : 1 ≤ s._camera_num) (hmax : s._camera_num ≤ XCAM_STITCH_FISHEYE_MAX_NUM)
    (hidx : idx < s._camera_num) :
    XCAM_STITCH_MAX_CAMERAS = XCAM_STITCH_FISHEYE_MAX_NUM ∧
    XCAM_STITCH_FISHEYE_MAX_NUM = 6 ∧
    ∃ hb : idx < XCAM_STITCH_MAX_CAMERAS,
      s.get_center idx = some (s._center_marks ⟨idx, hb⟩) ∧
      s.get_overlap idx = some (s._overlap_info ⟨idx, hb⟩) ∧
      s.get_crop idx = some (s._crop_info ⟨idx, hb⟩) := by
  have hb : idx < XCAM_STITCH_MAX_CAMERAS := lt_of_lt_of_le hidx hmax
  refine ⟨rfl, rfl, hb, ?_, ?_, ?_⟩ <;>
    simp [Stitcher.get_center, Stitcher.get_overlap, Stitcher.get_crop, Stitcher.readArray, hb]

/-- Witness of C5 on the configured stitcher (four cameras) at camera 3. -/
theorem Stitcher.accessors_in_bounds_witness :
    (1 ≤ sampleStitcher._camera_num ∧
     sampleStitcher._camera_num ≤ XCAM_STITCH_FISHEYE_MAX_NUM ∧
     3 < sampleStitcher._camera_num) ∧
    sampleStitcher.get_center 3 = some { slice_center_x := 240, out_center_x := 1680 } ∧
    sampleStitcher.get_overlap 3 = some (sampleOverlap 3) ∧
    sampleStitcher.get_crop 3 = some () := by
  obtain ⟨-, -, hb, h1, h2, h3⟩ :=
    Stitcher.accessors_in_bounds sampleStitcher 3 (by decide) (by decide) (by decide)
  exact ⟨by decide, by rw [h1]; rfl, by rw [h2]; rfl, by rw [h3]; rfl⟩

/-! ## Overlap estimation -/

/-- A successful run of the loop keeps the slots below `idx` and fills every
slot of `[idx, idx + todo)` with the overlap computed for it, which is at least
`XCAM_STITCH_MIN_SEAM_WIDTH` wide. -/
theorem Stitcher.estimate_overlap_loop_ok {X : ExternalTypes}
    (region : Stitcher X → Nat → Nat → ImageOverlapInfo) (s : Stitcher X) :
    ∀ (todo idx : Nat) (acc out : Fin XCAM_STITCH_MAX_CAMERAS → ImageOverlapInfo),
      Stitcher.estimate_overlap_loop region s todo idx acc = Except.ok out →
      (∀ j : Fin XCAM_STITCH_MAX_CAMERAS, j.val < idx → out j = acc j) ∧
      (∀ j, idx ≤ j → j < idx + todo →
        ∃ hj : j < XCAM_STITCH_MAX_CAMERAS,
          out ⟨j, hj⟩ = region s j ((j + 1) % s._camera_num) ∧
          (XCAM_STITCH_MIN_SEAM_WIDTH : Int) ≤ (out ⟨j, hj⟩).out_area.width) := by
  intro todo
  induction todo with
  | zero =>
    intro idx acc out h
    simp only [Stitcher.estimate_overlap_loop, Except.ok.injEq] at h
    subst h
    exact ⟨fun _ _ => rfl, fun j h1 h2 => absurd h2 (by omega)⟩
  | succ n ih =>
    intro idx acc out h
    simp only [Stitcher.estimate_overlap_loop] at h
    split at h
    · cases h
    · rename_i hwide
      split at h
      · rename_i hidx
        obtain ⟨hkeep, hfill⟩ := ih (idx + 1) _ out h
        have hat : out ⟨idx, hidx⟩ = region s idx ((idx + 1) % s._camera_num) := by
          rw [hkeep ⟨idx, hidx⟩ (Nat.lt_succ_self idx)]
          simp [Stitcher.writeArray]
        refine ⟨?_, ?_⟩
        · intro j hj
          rw [hkeep j (Nat.lt_succ_of_lt hj)]
          have hne : j ≠ ⟨idx, hidx⟩ := by
            intro hEq
            rw [hEq] at hj
            exact Nat.lt_irrefl _ hj
          simp [Stitcher.writeArray, Function.update_noteq hne]
        · intro j h1 h2
          rcases Nat.eq_or_lt_of_le h1 with hEq | hlt
          · subst hEq
            exact ⟨hidx, hat, by rw [hat]; exact not_lt.mp hwide⟩
          · exact hfill j hlt (by omega)
      · cases h

/-- The loop reports a configuration error as soon as one camera of
`[idx, idx + todo)` has a computed overlap narrower than
`XCAM_STITCH_MIN_SEAM_WIDTH`. -/
theorem Stitcher.estimate_overlap_loop_narrow {X : ExternalTypes}
    (region : Stitcher X → Nat → Nat → ImageOverlapInfo) (s : Stitcher X) :
    ∀ (todo idx : Nat) (acc : Fin XCAM_STITCH_MAX_CAMERAS → ImageOverlapInfo),
      (∃ j, idx ≤ j ∧ j < idx + todo ∧
        (region s j ((j + 1) % s._camera_num)).out_area.width
          < (XCAM_STITCH_MIN_SEAM_WIDTH : Int)) →
      Stitcher.estimate_overlap_loop region s todo idx acc
        = Except.error StitchError.configuration := by
  intro todo
  induction todo with
  | zero =>
    rintro idx acc ⟨j, h1, h2, -⟩
    omega
  | succ n ih =>
    rintro idx acc ⟨j, h1, h2, hnarrow⟩
    simp only [Stitcher.estimate_overlap_loop]
    split
    · rfl
    · rename_i hwide
      split
      · apply ih
        rcases Nat.eq_or_lt_of_le h1 with hEq | hlt
        · subst hEq
          exact absurd hnarrow hwide
        · exact ⟨j, hlt, by omega, hnarrow⟩
      · rfl

/-- The loop succeeds when every camera of `[idx, idx + todo)` has a slot and a
computed overlap of at least `XCAM_STITCH_MIN_SEAM_WIDTH`. -/
theorem Stitcher.estimate_overlap_loop_total {X : ExternalTypes}
    (region : Stitcher X → Nat → Nat → ImageOverlapInfo) (s : Stitcher X) :
    ∀ (todo idx : Nat) (acc : Fin XCAM_STITCH_MAX_CAMERAS → ImageOverlapInfo),
      idx + todo ≤ XCAM_STITCH_MAX_CAMERAS →
      (∀ j, idx ≤ j → j < idx + todo →
        (XCAM_STITCH_MIN_SEAM_WIDTH : Int)
          ≤ (region s j ((j + 1) % s._camera_num)).out_area.width) →
      ∃ out, Stitcher.estimate_overlap_loop region s todo idx acc = Except.ok out := by
  intro todo
  induction todo with
  | zero =>
    intro idx acc _ _
    exact ⟨acc, rfl⟩
  | succ n ih =>
    intro idx acc hcap hwide
    simp only [Stitcher.estimate_overlap_loop]
    have h0 := hwide idx (Nat.le_refl idx) (by omega)
    rw [if_neg (not_lt.mpr h0)]
    have hidx : idx < XCAM_STITCH_MAX_CAMERAS := by omega
    rw [dif_pos hidx]
    exact ih (idx + 1) _ (by omega) (fun j h1 h2 => hwide j (by omega) (by omega))

/-- C6: whenever `estimate_overlap` succeeds, the overlap accepted for each
camera (with its circular successor) is the computed one, unchanged, and its
`out_area` is at least `XCAM_STITCH_MIN_SEAM_WIDTH = 56` wide; a configuration
with a narrower computed overlap makes `estimate_overlap` return a
configuration error; and a configuration within the camera limit whose
computed overlaps are all wide enough is accepted. -/
theorem Stitcher.estimate_overlap_min_seam_width {X : ExternalTypes}
    (region : Stitcher X → Nat → Nat → ImageOverlapInfo) (s : Stitcher X) :
    XCAM_STITCH_MIN_SEAM_WIDTH = 56 ∧
    (∀ t, Stitcher.estimate_overlap region s = Except.ok t →
      ∀ idx, idx < s._camera_num →
        ∃ overlap, t.get_overlap idx = some overlap ∧
          overlap = region s idx ((idx + 1) % s._camera_num) ∧
          (XCAM_STITCH_MIN_SEAM_WIDTH : Int) ≤ overlap.out_area.width) ∧
    ((∃ idx, idx < s._camera_num ∧
        (region s idx ((idx + 1) % s._camera_num)).out_area.width
          < (XCAM_STITCH_MIN_SEAM_WIDTH : Int)) →
      Stitcher.estimate_overlap region s = Except.error StitchError.configuration) ∧
    (s._camera_num ≤ XCAM_STITCH_FISHEYE_MAX_NUM →
      (∀ idx, idx < s._camera_num →
        (XCAM_STITCH_MIN_SEAM_WIDTH : Int)
          ≤ (region s idx ((idx + 1) % s._camera_num)).out_area.width) →
      ∃ t, Stitcher.estimate_overlap region s = Except.ok t) := by
  refine ⟨rfl, ?_, ?_, ?_⟩
  · intro t ht idx hidx
    unfold Stitcher.estimate_overlap at ht
    split at ht
    · rename_i overlaps hloop
      simp only [Except.ok.injEq] at ht
      subst ht
      obtain ⟨hj, hEq, hwide⟩ :=
        (Stitcher.estimate_overlap_loop_ok region s _ 0 _ overlaps hloop).2 idx
          (Nat.zero_le idx) (by omega)
      exact ⟨overlaps ⟨idx, hj⟩, by simp [Stitcher.get_overlap, Stitcher.readArray, hj],
        hEq, hwide⟩
    · cases ht
  · rintro ⟨idx, hidx, hnarrow⟩
    unfold Stitcher.estimate_overlap
    rw [Stitcher.estimate_overlap_loop_narrow region s _ 0 _
      ⟨idx, Nat.zero_le idx, by omega, hnarrow⟩]
  · intro hmax hwide
    obtain ⟨out, hout⟩ := Stitcher.estimate_overlap_loop_total region s s._camera_num 0
      s._overlap_info (by simpa using hmax) (fun j _ h2 => hwide j (by omega))
    unfold Stitcher.estimate_overlap
    rw [hout]
    exact ⟨_, rfl⟩

/-- Witness of C6: on the configured stitcher the seams of 64 columns are
accepted and stored as computed, and the configuration whose seam of camera 2
is 40 columns wide is rejected with a configuration error. -/
theorem Stitcher.estimate_overlap_min_seam_width_witness :
    (∃ t, Stitcher.estimate_overlap sampleRegion sampleStitcher = Except.ok t ∧
      t.get_overlap 3 = some (sampleOverlap 3) ∧
      (sampleOverlap 3).out_area.width = 64) ∧
    Stitcher.estimate_overlap narrowRegion sampleStitcher
      = Except.error StitchError.configuration := by
  have hgood := Stitcher.estimate_overlap_min_seam_width sampleRegion sampleStitcher
  have hbad := Stitcher.estimate_overlap_min_seam_width narrowRegion sampleStitcher
  obtain ⟨t, ht⟩ := hgood.2.2.2 (by decide) (by
    intro idx _
    simp [sampleRegion, sampleOverlap])
  obtain ⟨overlap, h1, h2, -⟩ := hgood.2.1 t ht 3 (by decide)
  refine ⟨⟨t, ht, ?_, rfl⟩, hbad.2.2.1 ⟨2, by decide, by decide⟩⟩
  rw [h1, h2]
  rfl

end XCam
